import Mathlib

/-!
# Sweep gradient contents

A shallow embedding of `impeller/entity/contents/sweep_gradient_contents.cc`
and the properties of its configuration setters and its two render paths.

Scalars are exact rationals.  Everything the source calls that lives outside it
(the render pass, the geometry, the renderer, the gradient generator, the clip
restore contents) is a field of `Externals`; every such call that has an effect
or whose result steers the control flow is recorded, with its result, in the
call history carried by `RenderPass`.
-/

namespace impeller

/-! ## Data model -/

/-- Scalar values, taken as exact rationals. -/
abbrev Scalar := ℚ

/-- A 2D point (also used for `Vector2`). -/
structure Point where
  x : Scalar
  y : Scalar
deriving DecidableEq

/-- An angle in degrees. -/
structure Degrees where
  degrees : Scalar
deriving DecidableEq

/-- An RGBA colour. -/
structure Color where
  red : Scalar
  green : Scalar
  blue : Scalar
  alpha : Scalar
deriving DecidableEq

/-- Modelled from the spec: the enumeration `Entity::TileMode`, declared in
`entity.h`, with the members the spec lists (clamp, repeat, mirror, decal). -/
inductive TileMode where
  | kClamp
  | kRepeat
  | kMirror
  | kDecal
deriving DecidableEq

/-- Modelled from the spec: the numeric tag of a tile mode, the value that
`static_cast<Scalar>(tile_mode_)` produces, in the order the spec lists. -/
def TileMode.code : TileMode → Nat
  | .kClamp => 0
  | .kRepeat => 1
  | .kMirror => 2
  | .kDecal => 3

/-- A transformation matrix; its entries are never inspected by this source. -/
structure Matrix where
  m : List Scalar
deriving DecidableEq

/-- An integer size. -/
structure ISize where
  width : Nat
  height : Nat
deriving DecidableEq

/-- One entry of the stop buffer, as produced by `CreateGradientColors`. -/
structure StopData where
  color : Color
  stop : Scalar
deriving DecidableEq

/-- The baked ramp produced by `CreateGradientBuffer`; never inspected here. -/
structure GradientData where
  color_bytes : List Nat
  texture_size : Nat
deriving DecidableEq

/-- A texture handle, with the two attributes the texture path reads. -/
structure Texture where
  size : ISize
  y_coord_scale : Scalar
deriving DecidableEq

/-- The comparison functions: the one this source names, and all the others. -/
inductive CompareFunction where
  | kEqual
  | other (code : Nat)
deriving DecidableEq

/-- The stencil operations: the one this source names, and all the others. -/
inductive StencilOperation where
  | kIncrementClamp
  | other (code : Nat)
deriving DecidableEq

/-- A primitive type; only passed through by this source. -/
structure PrimitiveType where
  code : Nat
deriving DecidableEq

/-- The pipeline options; the three fields this source writes, and the rest. -/
structure ContentContextOptions where
  stencil_compare : CompareFunction
  stencil_operation : StencilOperation
  primitive_type : PrimitiveType
  rest : List Nat
deriving DecidableEq

/-- A pipeline handle. -/
structure Pipeline where
  id : Nat
deriving DecidableEq

/-- A vertex buffer handle. -/
structure VertexBuffer where
  id : Nat
deriving DecidableEq

/-- A sampler handle. -/
structure Sampler where
  id : Nat
deriving DecidableEq

/-- The filters of a sampler descriptor: the one this source names, and the others. -/
inductive MinMagFilter where
  | kLinear
  | other (code : Nat)
deriving DecidableEq

/-- A sampler descriptor, with the two fields this source writes. -/
structure SamplerDescriptor where
  min_filter : MinMagFilter
  mag_filter : MinMagFilter
deriving DecidableEq

/-- What `Geometry::GetPositionBuffer` returns. -/
structure GeometryResult where
  type : PrimitiveType
  vertex_buffer : VertexBuffer
  transform : Matrix
  prevent_overdraw : Bool
deriving DecidableEq

/-- The entity being drawn, with the two attributes this source reads. -/
structure Entity where
  stencil_depth : Nat
  transformation : Matrix
deriving DecidableEq

/-- A region of the transient buffer: the position, in the call history, of the
call that allocated it. -/
structure BufferView where
  index : Nat
deriving DecidableEq

/-- The uniform block `FS::GradientInfo` of the SSBO pipeline. -/
structure SSBOGradientInfo where
  center : Point
  bias : Scalar
  scale : Scalar
  tile_mode : Scalar
  alpha : Scalar
  colors_length : Nat
deriving DecidableEq

/-- The uniform block `FS::GradientInfo` of the texture pipeline. -/
structure TextureGradientInfo where
  center : Point
  bias : Scalar
  scale : Scalar
  texture_sampler_y_coord_scale : Scalar
  tile_mode : Scalar
  alpha : Scalar
  half_texel : Point
deriving DecidableEq

/-- The uniform block `VS::FrameInfo`. -/
structure FrameInfo where
  mvp : Matrix
  matrix : Matrix
deriving DecidableEq

/-- A resource bound to a draw command. -/
inductive Binding where
  | Vertices (vertex_buffer : VertexBuffer)
  | GradientInfo (view : BufferView)
  | ColorData (view : BufferView)
  | FrameInfo (view : BufferView)
  | TextureSampler (texture : Texture) (sampler : Sampler)
deriving DecidableEq

/-- A draw command. -/
structure Command where
  label : String
  stencil_reference : Nat
  pipeline : Option Pipeline
  bindings : List Binding
deriving DecidableEq

/-- A default-constructed command. -/
def Command.default : Command :=
  { label := "", stencil_reference := 0, pipeline := none, bindings := [] }

/-- One call made to a collaborator outside this source, with the arguments
this source computed and the result the collaborator returned. -/
inductive Call where
  | Emplace (data : List StopData) (length align : Nat)
  | EmplaceUniformSSBOGradientInfo (uniform : SSBOGradientInfo)
  | EmplaceUniformTextureGradientInfo (uniform : TextureGradientInfo)
  | EmplaceUniformFrameInfo (uniform : FrameInfo)
  | CreateGradientTexture (data : GradientData) (result : Option Texture)
  | GetPositionBuffer (result : GeometryResult)
  | OptionsFromPassAndEntity (result : ContentContextOptions)
  | GetSweepGradientSSBOFillPipeline (options : ContentContextOptions)
  | GetSweepGradientFillPipeline (options : ContentContextOptions)
  | AddCommand (cmd : Command) (result : Bool)
  | ClipRestoreRender (result : Bool)
deriving DecidableEq

/-- The render pass, seen through the history of calls made so far. -/
structure RenderPass where
  calls : List Call
deriving DecidableEq

/-- The collaborators of this source.  Each may answer depending on the
history so far (`RenderPass`) and on its arguments. -/
structure Externals where
  /-- The flag `renderer.GetBackendFeatures().ssbo_support`. -/
  ssbo_support : Bool
  /-- The stop packer of `gradient_generator.h`. -/
  CreateGradientColors : List Color → List Scalar → List StopData
  /-- The ramp builder of `gradient_generator.h`. -/
  CreateGradientBuffer : List Color → List Scalar → GradientData
  /-- The texture bake; `none` is the null texture. -/
  CreateGradientTexture : RenderPass → GradientData → Option Texture
  /-- The value of `sizeof(StopData)`. -/
  sizeof_StopData : Nat
  /-- The value of `alignof(StopData)`. -/
  alignof_StopData : Nat
  /-- The size `pass.GetRenderTargetSize()`. -/
  GetRenderTargetSize : RenderPass → ISize
  /-- The projection `Matrix::MakeOrthographic`. -/
  MakeOrthographic : ISize → Matrix
  /-- The matrix product. -/
  mul : Matrix → Matrix → Matrix
  /-- The geometry of the contents, `GetGeometry()->GetPositionBuffer`. -/
  GetPositionBuffer : RenderPass → Entity → GeometryResult
  /-- The default options for a pass and an entity. -/
  OptionsFromPassAndEntity : RenderPass → Entity → ContentContextOptions
  /-- The pipeline lookup of the SSBO path. -/
  GetSweepGradientSSBOFillPipeline : ContentContextOptions → Option Pipeline
  /-- The pipeline lookup of the texture path. -/
  GetSweepGradientFillPipeline : ContentContextOptions → Option Pipeline
  /-- The sampler lookup. -/
  GetSampler : SamplerDescriptor → Sampler
  /-- Whether `pass.AddCommand` accepts the command. -/
  AddCommand : RenderPass → Command → Bool
  /-- The result of `ClipRestoreContents().Render`. -/
  ClipRestoreRender : RenderPass → Entity → Bool

/-- The state of a `SweepGradientContents` object: its own members and the
members of its base class that the render paths read. -/
structure SweepGradientContents where
  center_ : Point
  colors_ : List Color
  stops_ : List Scalar
  bias_ : Scalar
  scale_ : Scalar
  tile_mode_ : TileMode
  alpha_ : Scalar
  inverse_matrix_ : Matrix
deriving DecidableEq

/-! ## Configuration -/

/-- The way a process ends when an active check fails. -/
inductive Fatal where
  | check_failed
deriving DecidableEq

/-- The macro `FML_DCHECK` of `flutter/fml/logging.h`, which is not part of
this source.  Whether the check is compiled in is a build setting, the
parameter `enabled`; an active check that fails ends the process. -/
def FML_DCHECK (enabled : Bool) (condition : Bool) : Except Fatal Unit :=
  if enabled && !condition then .error .check_failed else .ok ()

/-- Source lines 22-31. -/
def SetCenterAndAngles (dchecks : Bool) (self : SweepGradientContents) (center : Point)
    (start_angle end_angle : Degrees) : Except Fatal SweepGradientContents := do
  let self := { self with center_ := center }
  let t0 : Scalar := start_angle.degrees / 360
  let t1 : Scalar := end_angle.degrees / 360
  FML_DCHECK dchecks (decide (t0 < t1))
  let self := { self with bias_ := -t0 }
  let self := { self with scale_ := 1 / (t1 - t0) }
  return self

/-- Source lines 33-35. -/
def SetColors (self : SweepGradientContents) (colors : List Color) : SweepGradientContents :=
  { self with colors_ := colors }

/-- Source lines 37-39. -/
def SetStops (self : SweepGradientContents) (stops : List Scalar) : SweepGradientContents :=
  { self with stops_ := stops }

/-- Source lines 41-43. -/
def SetTileMode (self : SweepGradientContents) (tile_mode : TileMode) : SweepGradientContents :=
  { self with tile_mode_ := tile_mode }

/-- Source lines 45-47. -/
def GetColors (self : SweepGradientContents) : List Color := self.colors_

/-- Source lines 49-51. -/
def GetStops (self : SweepGradientContents) : List Scalar := self.stops_

/-- The accessor `GetAlpha` of the base class. -/
def GetAlpha (self : SweepGradientContents) : Scalar := self.alpha_

/-- The accessor `GetInverseMatrix` of the base class. -/
def GetInverseMatrix (self : SweepGradientContents) : Matrix := self.inverse_matrix_

/-! ## Calls to the collaborators -/

/-- Append one call to the history. -/
def RenderPass.record (pass : RenderPass) (c : Call) : RenderPass :=
  { pass with calls := pass.calls ++ [c] }

/-- The call `host_buffer.Emplace(data, length, align)`. -/
def Emplace (pass : RenderPass) (data : List StopData) (length align : Nat) :
    BufferView × RenderPass :=
  (⟨pass.calls.length⟩, pass.record (.Emplace data length align))

/-- The call `EmplaceUniform` on a gradient block of the SSBO pipeline. -/
def EmplaceUniformSSBOGradientInfo (pass : RenderPass) (uniform : SSBOGradientInfo) :
    BufferView × RenderPass :=
  (⟨pass.calls.length⟩, pass.record (.EmplaceUniformSSBOGradientInfo uniform))

/-- The call `EmplaceUniform` on a gradient block of the texture pipeline. -/
def EmplaceUniformTextureGradientInfo (pass : RenderPass) (uniform : TextureGradientInfo) :
    BufferView × RenderPass :=
  (⟨pass.calls.length⟩, pass.record (.EmplaceUniformTextureGradientInfo uniform))

/-- The call `EmplaceUniform` on a frame block. -/
def EmplaceUniformFrameInfo (pass : RenderPass) (uniform : FrameInfo) :
    BufferView × RenderPass :=
  (⟨pass.calls.length⟩, pass.record (.EmplaceUniformFrameInfo uniform))

/-- The call `CreateGradientTexture(gradient_data, renderer.GetContext())`. -/
def CreateGradientTexture (ext : Externals) (pass : RenderPass) (data : GradientData) :
    Option Texture × RenderPass :=
  let result := ext.CreateGradientTexture pass data
  (result, pass.record (.CreateGradientTexture data result))

/-- The call `GetGeometry()->GetPositionBuffer(renderer, entity, pass)`. -/
def GetPositionBuffer (ext : Externals) (entity : Entity) (pass : RenderPass) :
    GeometryResult × RenderPass :=
  let result := ext.GetPositionBuffer pass entity
  (result, pass.record (.GetPositionBuffer result))

/-- The call `OptionsFromPassAndEntity(pass, entity)`. -/
def OptionsFromPassAndEntity (ext : Externals) (pass : RenderPass) (entity : Entity) :
    ContentContextOptions × RenderPass :=
  let result := ext.OptionsFromPassAndEntity pass entity
  (result, pass.record (.OptionsFromPassAndEntity result))

/-- The call `renderer.GetSweepGradientSSBOFillPipeline(options)`. -/
def GetSweepGradientSSBOFillPipeline (ext : Externals) (pass : RenderPass)
    (options : ContentContextOptions) : Option Pipeline × RenderPass :=
  (ext.GetSweepGradientSSBOFillPipeline options,
    pass.record (.GetSweepGradientSSBOFillPipeline options))

/-- The call `renderer.GetSweepGradientFillPipeline(options)`. -/
def GetSweepGradientFillPipeline (ext : Externals) (pass : RenderPass)
    (options : ContentContextOptions) : Option Pipeline × RenderPass :=
  (ext.GetSweepGradientFillPipeline options,
    pass.record (.GetSweepGradientFillPipeline options))

/-- The call `pass.AddCommand(std::move(cmd))`. -/
def AddCommand (ext : Externals) (pass : RenderPass) (cmd : Command) : Bool × RenderPass :=
  let result := ext.AddCommand pass cmd
  (result, pass.record (.AddCommand cmd result))

/-- The call `ClipRestoreContents().Render(renderer, entity, pass)`. -/
def ClipRestoreContents_Render (ext : Externals) (entity : Entity) (pass : RenderPass) :
    Bool × RenderPass :=
  let result := ext.ClipRestoreRender pass entity
  (result, pass.record (.ClipRestoreRender result))

/-- The member `Command::BindVertices` and the generated `Bind...` helpers:
the resource is added to the bindings of the command. -/
def Command.bind (cmd : Command) (b : Binding) : Command :=
  { cmd with bindings := cmd.bindings ++ [b] }

/-! ## Rendering -/

/-- Source lines 62-115. -/
def RenderSSBO (ext : Externals) (self : SweepGradientContents) (entity : Entity)
    (pass : RenderPass) : Bool × RenderPass :=
  let gradient_info : SSBOGradientInfo :=
    { center := self.center_
      bias := self.bias_
      scale := self.scale_
      tile_mode := (self.tile_mode_.code : Scalar)
      alpha := GetAlpha self
      colors_length := 0 }
  let colors := ext.CreateGradientColors self.colors_ self.stops_
  let gradient_info := { gradient_info with colors_length := colors.length }
  let (color_buffer, pass) :=
    Emplace pass colors (colors.length * ext.sizeof_StopData) ext.alignof_StopData
  let frame_info : FrameInfo :=
    { mvp := ext.mul (ext.MakeOrthographic (ext.GetRenderTargetSize pass)) entity.transformation
      matrix := GetInverseMatrix self }
  let cmd := Command.default
  let cmd := { cmd with label := "SweepGradientSSBOFill" }
  let cmd := { cmd with stencil_reference := entity.stencil_depth }
  let (geometry_result, pass) := GetPositionBuffer ext entity pass
  let (options, pass) := OptionsFromPassAndEntity ext pass entity
  let options :=
    if geometry_result.prevent_overdraw then
      { options with
        stencil_compare := CompareFunction.kEqual
        stencil_operation := StencilOperation.kIncrementClamp }
    else options
  let options := { options with primitive_type := geometry_result.type }
  let (pipeline, pass) := GetSweepGradientSSBOFillPipeline ext pass options
  let cmd := { cmd with pipeline := pipeline }
  let cmd := cmd.bind (.Vertices geometry_result.vertex_buffer)
  let (view, pass) := EmplaceUniformSSBOGradientInfo pass gradient_info
  let cmd := cmd.bind (.GradientInfo view)
  let cmd := cmd.bind (.ColorData color_buffer)
  let (view, pass) := EmplaceUniformFrameInfo pass frame_info
  let cmd := cmd.bind (.FrameInfo view)
  let (added, pass) := AddCommand ext pass cmd
  if !added then (false, pass)
  else if geometry_result.prevent_overdraw then ClipRestoreContents_Render ext entity pass
  else (true, pass)

/-- Source lines 117-179. -/
def RenderTexture (ext : Externals) (self : SweepGradientContents) (entity : Entity)
    (pass : RenderPass) : Bool × RenderPass :=
  let gradient_data := ext.CreateGradientBuffer self.colors_ self.stops_
  let (gradient_texture, pass) := CreateGradientTexture ext pass gradient_data
  match gradient_texture with
  | none => (false, pass)
  | some gradient_texture =>
    let gradient_info : TextureGradientInfo :=
      { center := self.center_
        bias := self.bias_
        scale := self.scale_
        texture_sampler_y_coord_scale := gradient_texture.y_coord_scale
        tile_mode := (self.tile_mode_.code : Scalar)
        alpha := GetAlpha self
        half_texel :=
          { x := (1 / 2 : Scalar) / (gradient_texture.size.width : Scalar)
            y := (1 / 2 : Scalar) / (gradient_texture.size.height : Scalar) } }
    let (geometry_result, pass) := GetPositionBuffer ext entity pass
    let frame_info : FrameInfo :=
      { mvp := geometry_result.transform
        matrix := GetInverseMatrix self }
    let cmd := Command.default
    let cmd := { cmd with label := "SweepGradientFill" }
    let cmd := { cmd with stencil_reference := entity.stencil_depth }
    let (options, pass) := OptionsFromPassAndEntity ext pass entity
    let options :=
      if geometry_result.prevent_overdraw then
        { options with
          stencil_compare := CompareFunction.kEqual
          stencil_operation := StencilOperation.kIncrementClamp }
      else options
    let options := { options with primitive_type := geometry_result.type }
    let (pipeline, pass) := GetSweepGradientFillPipeline ext pass options
    let cmd := { cmd with pipeline := pipeline }
    let cmd := cmd.bind (.Vertices geometry_result.vertex_buffer)
    let (view, pass) := EmplaceUniformTextureGradientInfo pass gradient_info
    let cmd := cmd.bind (.GradientInfo view)
    let (view, pass) := EmplaceUniformFrameInfo pass frame_info
    let cmd := cmd.bind (.FrameInfo view)
    let sampler_desc : SamplerDescriptor :=
      { min_filter := MinMagFilter.kLinear, mag_filter := MinMagFilter.kLinear }
    let cmd := cmd.bind (.TextureSampler gradient_texture (ext.GetSampler sampler_desc))
    let (added, pass) := AddCommand ext pass cmd
    if !added then (false, pass)
    else if geometry_result.prevent_overdraw then ClipRestoreContents_Render ext entity pass
    else (true, pass)

/-- Source lines 53-60. -/
def Render (ext : Externals) (self : SweepGradientContents) (entity : Entity)
    (pass : RenderPass) : Bool × RenderPass :=
  if ext.ssbo_support then RenderSSBO ext self entity pass
  else RenderTexture ext self entity pass

/-! ## Observations on the call history -/

/-- The calls made since `before`, given the history `after`. -/
def callsSince (before after : RenderPass) : List Call :=
  after.calls.drop before.calls.length

/-- Is the call an invocation of the clip restore pass? -/
def Call.isRestore : Call → Bool
  | .ClipRestoreRender _ => true
  | _ => false

/-- Is the call a draw submission? -/
def Call.isSubmit : Call → Bool
  | .AddCommand _ _ => true
  | _ => false

/-- Is the call an upload into the transient buffer or a texture bake? -/
def Call.isUpload : Call → Bool
  | .Emplace _ _ _ => true
  | .EmplaceUniformSSBOGradientInfo _ => true
  | .EmplaceUniformTextureGradientInfo _ => true
  | .EmplaceUniformFrameInfo _ => true
  | .CreateGradientTexture _ _ => true
  | _ => false

/-- The number of invocations of the clip restore pass in a history. -/
def restoreCount (calls : List Call) : Nat := calls.countP Call.isRestore

/-- The number of draw submissions in a history. -/
def submitCount (calls : List Call) : Nat := calls.countP Call.isSubmit

/-- The geometry results reported in a history. -/
def geometryResults : List Call → List GeometryResult
  | [] => []
  | .GetPositionBuffer result :: rest => result :: geometryResults rest
  | _ :: rest => geometryResults rest

/-- The stencil compare and stencil operation of the options for which a
pipeline was requested, in a history. -/
def stencilSettings : List Call → List (CompareFunction × StencilOperation)
  | [] => []
  | .GetSweepGradientSSBOFillPipeline options :: rest =>
    (options.stencil_compare, options.stencil_operation) :: stencilSettings rest
  | .GetSweepGradientFillPipeline options :: rest =>
    (options.stencil_compare, options.stencil_operation) :: stencilSettings rest
  | _ :: rest => stencilSettings rest

/-- The stencil references of the commands submitted in a history. -/
def stencilReferences : List Call → List Nat
  | [] => []
  | .AddCommand cmd _ :: rest => cmd.stencil_reference :: stencilReferences rest
  | _ :: rest => stencilReferences rest

/-- Is the call one that only the SSBO path makes? -/
def Call.isSSBOPath : Call → Bool
  | .Emplace _ _ _ => true
  | .EmplaceUniformSSBOGradientInfo _ => true
  | .GetSweepGradientSSBOFillPipeline _ => true
  | .AddCommand cmd _ => cmd.label == "SweepGradientSSBOFill"
  | _ => false

/-- Is the call one that only the texture path makes? -/
def Call.isTexturePath : Call → Bool
  | .CreateGradientTexture _ _ => true
  | .EmplaceUniformTextureGradientInfo _ => true
  | .GetSweepGradientFillPipeline _ => true
  | .AddCommand cmd _ => cmd.label == "SweepGradientFill"
  | _ => false

/-! ## Sample data -/

/-- The object that SetCenterAndAngles leaves behind when it completes. -/
def storedAngles (self : SweepGradientContents) (center : Point)
    (start_angle end_angle : Degrees) : SweepGradientContents :=
  { self with
    center_ := center
    bias_ := -(start_angle.degrees / 360)
    scale_ := 1 / (end_angle.degrees / 360 - start_angle.degrees / 360) }

/-- An object to configure. -/
def sampleContents : SweepGradientContents :=
  { center_ := ⟨0, 0⟩
    colors_ := []
    stops_ := []
    bias_ := 0
    scale_ := 1
    tile_mode_ := TileMode.kClamp
    alpha_ := 1
    inverse_matrix_ := ⟨[]⟩ }

/-- Collaborators whose answers do not depend on the history: the capability
flag, the overdraw report of the geometry, the submission outcome, the restore
outcome, the bake result and the default options are the parameters. -/
def sampleExternals (ssbo prevent added restored : Bool) (bake : Option Texture)
    (defaults : ContentContextOptions) : Externals :=
  { ssbo_support := ssbo
    CreateGradientColors := fun colors stops => List.zipWith StopData.mk colors stops
    CreateGradientBuffer := fun _ _ => ⟨[], 0⟩
    CreateGradientTexture := fun _ _ => bake
    sizeof_StopData := 32
    alignof_StopData := 16
    GetRenderTargetSize := fun _ => ⟨100, 100⟩
    MakeOrthographic := fun _ => ⟨[]⟩
    mul := fun a _ => a
    GetPositionBuffer := fun _ _ =>
      { type := ⟨0⟩, vertex_buffer := ⟨0⟩, transform := ⟨[]⟩, prevent_overdraw := prevent }
    OptionsFromPassAndEntity := fun _ _ => defaults
    GetSweepGradientSSBOFillPipeline := fun _ => some ⟨1⟩
    GetSweepGradientFillPipeline := fun _ => some ⟨2⟩
    GetSampler := fun _ => ⟨0⟩
    AddCommand := fun _ _ => added
    ClipRestoreRender := fun _ _ => restored }

/-- Default options whose stencil fields are neither of the two values this
source writes. -/
def sampleOptions : ContentContextOptions :=
  { stencil_compare := CompareFunction.other 0
    stencil_operation := StencilOperation.other 0
    primitive_type := ⟨0⟩
    rest := [] }

/-- An entity. -/
def sampleEntity : Entity := { stencil_depth := 3, transformation := ⟨[]⟩ }

/-- A texture. -/
def sampleTexture : Texture := { size := ⟨32, 1⟩, y_coord_scale := 1 }

/-- A fresh pass. -/
def samplePass : RenderPass := { calls := [] }

/-- Options whose stencil fields hold the two values this source writes under
prevent_overdraw. -/
def guardedOptions : ContentContextOptions :=
  { stencil_compare := CompareFunction.kEqual
    stencil_operation := StencilOperation.kIncrementClamp
    primitive_type := ⟨0⟩
    rest := [] }

/-- Opaque red. -/
def sampleRed : Color := { red := 1, green := 0, blue := 0, alpha := 1 }

/-- Opaque blue. -/
def sampleBlue : Color := { red := 0, green := 0, blue := 1, alpha := 1 }

/-- The geometry result that `sampleExternals` reports. -/
def sampleGeometry (prevent : Bool) : GeometryResult :=
  { type := ⟨0⟩, vertex_buffer := ⟨0⟩, transform := ⟨[]⟩, prevent_overdraw := prevent }

/-! ## The angle range -/

/-- SetCenterAndAngles in closed form: the check decides between the end of the
process and the stored object. -/
theorem SetCenterAndAngles_eq (dchecks : Bool) (self : SweepGradientContents)
    (center : Point) (start_angle end_angle : Degrees) :
    SetCenterAndAngles dchecks self center start_angle end_angle =
      if dchecks && !decide (start_angle.degrees / 360 < end_angle.degrees / 360) then
        Except.error Fatal.check_failed
      else Except.ok (storedAngles self center start_angle end_angle) := by
  unfold SetCenterAndAngles FML_DCHECK
  by_cases hc : (dchecks && !decide (start_angle.degrees / 360 < end_angle.degrees / 360)) = true
  · simp only [hc, if_true]; rfl
  · simp only [hc]; rfl

/-- C1: for every centre and every pair of angles with start < end, in every
build, SetCenterAndAngles completes, stores the centre, stores
bias = -start/360 and scale = 360/(end - start); hence the normalised parameter
(angle/360 + bias) * scale is 0 at angle = start and 1 at angle = end. -/
theorem SetCenterAndAngles_bias_scale (dchecks : Bool) (self : SweepGradientContents)
    (center : Point) (start_angle end_angle : Degrees)
    (h : start_angle.degrees < end_angle.degrees) :
    ∃ self' : SweepGradientContents,
      SetCenterAndAngles dchecks self center start_angle end_angle = Except.ok self' ∧
      self'.center_ = center ∧
      self'.bias_ = -start_angle.degrees / 360 ∧
      self'.scale_ = 360 / (end_angle.degrees - start_angle.degrees) ∧
      (start_angle.degrees / 360 + self'.bias_) * self'.scale_ = 0 ∧
      (end_angle.degrees / 360 + self'.bias_) * self'.scale_ = 1 := by
  have hlt : start_angle.degrees / 360 < end_angle.degrees / 360 :=
    div_lt_div_of_pos_right h (by norm_num)
  have hne : end_angle.degrees - start_angle.degrees ≠ 0 := sub_ne_zero.mpr (ne_of_gt h)
  refine ⟨storedAngles self center start_angle end_angle, ?_, rfl, ?_, ?_, ?_, ?_⟩
  · rw [SetCenterAndAngles_eq]
    simp [hlt]
  · show -(start_angle.degrees / 360) = -start_angle.degrees / 360
    ring
  · show 1 / (end_angle.degrees / 360 - start_angle.degrees / 360) = _
    field_simp
  · show (start_angle.degrees / 360 + -(start_angle.degrees / 360)) *
      (1 / (end_angle.degrees / 360 - start_angle.degrees / 360)) = 0
    simp
  · show (end_angle.degrees / 360 + -(start_angle.degrees / 360)) *
      (1 / (end_angle.degrees / 360 - start_angle.degrees / 360)) = 1
    field_simp
    ring

/-- A concrete instance: the range 45 to 225 degrees, with the check active. -/
theorem SetCenterAndAngles_bias_scale_witness :
    ((⟨45⟩ : Degrees).degrees < (⟨225⟩ : Degrees).degrees) ∧
    ∃ self' : SweepGradientContents,
      SetCenterAndAngles true sampleContents ⟨1, 2⟩ ⟨45⟩ ⟨225⟩ = Except.ok self' ∧
      self'.center_ = ⟨1, 2⟩ ∧
      self'.bias_ = -(⟨45⟩ : Degrees).degrees / 360 ∧
      self'.scale_ = 360 / ((⟨225⟩ : Degrees).degrees - (⟨45⟩ : Degrees).degrees) ∧
      ((⟨45⟩ : Degrees).degrees / 360 + self'.bias_) * self'.scale_ = 0 ∧
      ((⟨225⟩ : Degrees).degrees / 360 + self'.bias_) * self'.scale_ = 1 :=
  ⟨by norm_num, SetCenterAndAngles_bias_scale true sampleContents ⟨1, 2⟩ ⟨45⟩ ⟨225⟩ (by norm_num)⟩

/-- The SSBO path, in terms of the answers of the collaborators: the calls it
makes, in order, and the value it returns. -/
theorem RenderSSBO_shape (ext : Externals) (self : SweepGradientContents) (entity : Entity)
    (pass : RenderPass) :
    ∃ (geo : GeometryResult) (defaults : ContentContextOptions) (options : ContentContextOptions)
      (mvp : Matrix) (added restored : Bool) (pre : List Call) (cmd : Command),
      options =
        { stencil_compare :=
            if geo.prevent_overdraw then CompareFunction.kEqual else defaults.stencil_compare
          stencil_operation :=
            if geo.prevent_overdraw then StencilOperation.kIncrementClamp
            else defaults.stencil_operation
          primitive_type := geo.type
          rest := defaults.rest } ∧
      pre =
        [Call.Emplace (ext.CreateGradientColors self.colors_ self.stops_)
            ((ext.CreateGradientColors self.colors_ self.stops_).length * ext.sizeof_StopData)
            ext.alignof_StopData,
          Call.GetPositionBuffer geo,
          Call.OptionsFromPassAndEntity defaults,
          Call.GetSweepGradientSSBOFillPipeline options,
          Call.EmplaceUniformSSBOGradientInfo
            { center := self.center_
              bias := self.bias_
              scale := self.scale_
              tile_mode := (self.tile_mode_.code : Scalar)
              alpha := self.alpha_
              colors_length := (ext.CreateGradientColors self.colors_ self.stops_).length },
          Call.EmplaceUniformFrameInfo { mvp := mvp, matrix := self.inverse_matrix_ }] ∧
      cmd =
        { label := "SweepGradientSSBOFill"
          stencil_reference := entity.stencil_depth
          pipeline := ext.GetSweepGradientSSBOFillPipeline options
          bindings :=
            [Binding.Vertices geo.vertex_buffer,
              Binding.GradientInfo ⟨pass.calls.length + 4⟩,
              Binding.ColorData ⟨pass.calls.length⟩,
              Binding.FrameInfo ⟨pass.calls.length + 5⟩] } ∧
      added = ext.AddCommand ⟨pass.calls ++ pre⟩ cmd ∧
      restored = ext.ClipRestoreRender ⟨pass.calls ++ pre ++ [Call.AddCommand cmd added]⟩ entity ∧
      RenderSSBO ext self entity pass =
        (added && (!geo.prevent_overdraw || restored),
          ⟨pass.calls ++ (pre ++ Call.AddCommand cmd added ::
            (if added && geo.prevent_overdraw then [Call.ClipRestoreRender restored] else []))⟩) ∧
      (∃ p, geo = ext.GetPositionBuffer p entity) ∧
      (∃ p, defaults = ext.OptionsFromPassAndEntity p entity) := by
  refine ⟨ext.GetPositionBuffer (Emplace pass (ext.CreateGradientColors self.colors_ self.stops_)
      ((ext.CreateGradientColors self.colors_ self.stops_).length * ext.sizeof_StopData)
      ext.alignof_StopData).2 entity, ?_⟩
  generalize hgeo : ext.GetPositionBuffer _ entity = geo
  refine ⟨ext.OptionsFromPassAndEntity ((Emplace pass
      (ext.CreateGradientColors self.colors_ self.stops_)
      ((ext.CreateGradientColors self.colors_ self.stops_).length * ext.sizeof_StopData)
      ext.alignof_StopData).2.record (Call.GetPositionBuffer geo)) entity, ?_⟩
  generalize hdef : ext.OptionsFromPassAndEntity _ entity = defaults
  refine ⟨
      { stencil_compare :=
          if geo.prevent_overdraw then CompareFunction.kEqual else defaults.stencil_compare
        stencil_operation :=
          if geo.prevent_overdraw then StencilOperation.kIncrementClamp
          else defaults.stencil_operation
        primitive_type := geo.type
        rest := defaults.rest },
    ext.mul (ext.MakeOrthographic (ext.GetRenderTargetSize (Emplace pass
      (ext.CreateGradientColors self.colors_ self.stops_)
      ((ext.CreateGradientColors self.colors_ self.stops_).length * ext.sizeof_StopData)
      ext.alignof_StopData).2)) entity.transformation,
    _, _, _, _, rfl, rfl, rfl, rfl, rfl, ?_, ⟨_, hgeo.symm⟩, ⟨_, hdef.symm⟩⟩
  simp only [RenderSSBO, Emplace, EmplaceUniformSSBOGradientInfo, EmplaceUniformFrameInfo,
    GetPositionBuffer, OptionsFromPassAndEntity, GetSweepGradientSSBOFillPipeline, AddCommand,
    ClipRestoreContents_Render, RenderPass.record, Command.bind, Command.default, GetAlpha,
    GetInverseMatrix] at hgeo hdef ⊢
  simp only [hgeo, hdef]
  cases hp : geo.prevent_overdraw <;> simp [hp]
  all_goals
    generalize ext.AddCommand _ _ = added
    cases added <;> simp

/-- The texture path when the bake fails: one call, the bake, and `false`. -/
theorem RenderTexture_of_bake_none (ext : Externals) (self : SweepGradientContents)
    (entity : Entity) (pass : RenderPass)
    (h : ext.CreateGradientTexture pass (ext.CreateGradientBuffer self.colors_ self.stops_) = none) :
    RenderTexture ext self entity pass =
      (false,
        ⟨pass.calls ++
          [Call.CreateGradientTexture (ext.CreateGradientBuffer self.colors_ self.stops_) none]⟩) := by
  simp only [RenderTexture, CreateGradientTexture, RenderPass.record, h]

/-- The texture path when the bake succeeds, in terms of the answers of the
collaborators: the calls it makes, in order, and the value it returns. -/
theorem RenderTexture_shape (ext : Externals) (self : SweepGradientContents) (entity : Entity)
    (pass : RenderPass) (texture : Texture)
    (h : ext.CreateGradientTexture pass (ext.CreateGradientBuffer self.colors_ self.stops_) =
      some texture) :
    ∃ (geo : GeometryResult) (defaults : ContentContextOptions) (options : ContentContextOptions)
      (added restored : Bool) (pre : List Call) (cmd : Command),
      options =
        { stencil_compare :=
            if geo.prevent_overdraw then CompareFunction.kEqual else defaults.stencil_compare
          stencil_operation :=
            if geo.prevent_overdraw then StencilOperation.kIncrementClamp
            else defaults.stencil_operation
          primitive_type := geo.type
          rest := defaults.rest } ∧
      pre =
        [Call.CreateGradientTexture (ext.CreateGradientBuffer self.colors_ self.stops_)
            (some texture),
          Call.GetPositionBuffer geo,
          Call.OptionsFromPassAndEntity defaults,
          Call.GetSweepGradientFillPipeline options,
          Call.EmplaceUniformTextureGradientInfo
            { center := self.center_
              bias := self.bias_
              scale := self.scale_
              texture_sampler_y_coord_scale := texture.y_coord_scale
              tile_mode := (self.tile_mode_.code : Scalar)
              alpha := self.alpha_
              half_texel :=
                { x := (1 / 2 : Scalar) / (texture.size.width : Scalar)
                  y := (1 / 2 : Scalar) / (texture.size.height : Scalar) } },
          Call.EmplaceUniformFrameInfo { mvp := geo.transform, matrix := self.inverse_matrix_ }] ∧
      cmd =
        { label := "SweepGradientFill"
          stencil_reference := entity.stencil_depth
          pipeline := ext.GetSweepGradientFillPipeline options
          bindings :=
            [Binding.Vertices geo.vertex_buffer,
              Binding.GradientInfo ⟨pass.calls.length + 4⟩,
              Binding.FrameInfo ⟨pass.calls.length + 5⟩,
              Binding.TextureSampler texture
                (ext.GetSampler
                  { min_filter := MinMagFilter.kLinear, mag_filter := MinMagFilter.kLinear })] } ∧
      added = ext.AddCommand ⟨pass.calls ++ pre⟩ cmd ∧
      restored = ext.ClipRestoreRender ⟨pass.calls ++ pre ++ [Call.AddCommand cmd added]⟩ entity ∧
      RenderTexture ext self entity pass =
        (added && (!geo.prevent_overdraw || restored),
          ⟨pass.calls ++ (pre ++ Call.AddCommand cmd added ::
            (if added && geo.prevent_overdraw then [Call.ClipRestoreRender restored] else []))⟩) ∧
      (∃ p, geo = ext.GetPositionBuffer p entity) ∧
      (∃ p, defaults = ext.OptionsFromPassAndEntity p entity) := by
  refine ⟨ext.GetPositionBuffer (CreateGradientTexture ext pass
      (ext.CreateGradientBuffer self.colors_ self.stops_)).2 entity, ?_⟩
  generalize hgeo : ext.GetPositionBuffer _ entity = geo
  refine ⟨ext.OptionsFromPassAndEntity ((CreateGradientTexture ext pass
      (ext.CreateGradientBuffer self.colors_ self.stops_)).2.record
      (Call.GetPositionBuffer geo)) entity, ?_⟩
  generalize hdef : ext.OptionsFromPassAndEntity _ entity = defaults
  refine ⟨
      { stencil_compare :=
          if geo.prevent_overdraw then CompareFunction.kEqual else defaults.stencil_compare
        stencil_operation :=
          if geo.prevent_overdraw then StencilOperation.kIncrementClamp
          else defaults.stencil_operation
        primitive_type := geo.type
        rest := defaults.rest },
    _, _, _, _, rfl, rfl, rfl, rfl, rfl, ?_, ⟨_, hgeo.symm⟩, ⟨_, hdef.symm⟩⟩
  simp only [RenderTexture, EmplaceUniformTextureGradientInfo, EmplaceUniformFrameInfo,
    CreateGradientTexture, GetPositionBuffer, OptionsFromPassAndEntity,
    GetSweepGradientFillPipeline, AddCommand, ClipRestoreContents_Render, RenderPass.record,
    Command.bind, Command.default, GetAlpha, GetInverseMatrix, h] at hgeo hdef ⊢
  simp only [hgeo, hdef]
  cases hp : geo.prevent_overdraw <;> simp [hp]
  all_goals
    generalize ext.AddCommand _ _ = added
    cases added <;> simp

/-! ## Properties of the render paths -/

/-- The calls made since a pass are what was appended to its history. -/
theorem callsSince_append (pass : RenderPass) (l : List Call) :
    callsSince pass ⟨pass.calls ++ l⟩ = l := by
  simp [callsSince]

/-- Indexing past the old history lands in the appended calls. -/
theorem getElem?_append_length_add (l m : List Call) (k : Nat) :
    (l ++ m)[l.length + k]? = m[k]? := by
  rw [List.getElem?_append_right (Nat.le_add_right _ _)]
  congr 1
  omega

/-- A history without submissions contains no AddCommand call. -/
theorem not_mem_of_submitCount_eq_zero (l : List Call) (h : submitCount l = 0) (cmd : Command)
    (added : Bool) : Call.AddCommand cmd added ∉ l := by
  intro hmem
  have hpos : 0 < submitCount l := List.countP_pos_iff.mpr ⟨_, hmem, rfl⟩
  omega

/-- A geometry query is in a history exactly when its result is reported. -/
theorem mem_geometryResults (l : List Call) (geo : GeometryResult) :
    Call.GetPositionBuffer geo ∈ l ↔ geo ∈ geometryResults l := by
  induction l with
  | nil => simp [geometryResults]
  | cons c l ih => cases c <;> simp [geometryResults, ih]

/-- The reported geometry results of a concatenation. -/
theorem geometryResults_append (l m : List Call) :
    geometryResults (l ++ m) = geometryResults l ++ geometryResults m := by
  induction l with
  | nil => simp [geometryResults]
  | cons c l ih => cases c <;> simp [geometryResults, ih]

/-- Every Render call either stops at a failed bake (texture path only), or
queries the geometry once, submits one draw command and, exactly when the
command was accepted and the geometry reported prevent_overdraw, invokes the
clip restore pass, whose result it then returns. -/
theorem Render_cases (ext : Externals) (self : SweepGradientContents) (entity : Entity)
    (pass : RenderPass) :
    (ext.ssbo_support = false ∧
      ext.CreateGradientTexture pass (ext.CreateGradientBuffer self.colors_ self.stops_) = none ∧
      Render ext self entity pass =
        (false,
          ⟨pass.calls ++
            [Call.CreateGradientTexture (ext.CreateGradientBuffer self.colors_ self.stops_)
              none]⟩)) ∨
    ∃ (geo : GeometryResult) (added restored : Bool) (pre : List Call) (cmd : Command),
      geometryResults pre = [geo] ∧ restoreCount pre = 0 ∧ submitCount pre = 0 ∧
      added = ext.AddCommand ⟨pass.calls ++ pre⟩ cmd ∧
      restored = ext.ClipRestoreRender ⟨pass.calls ++ pre ++ [Call.AddCommand cmd added]⟩ entity ∧
      Render ext self entity pass =
        (added && (!geo.prevent_overdraw || restored),
          ⟨pass.calls ++ (pre ++ Call.AddCommand cmd added ::
            (if added && geo.prevent_overdraw then [Call.ClipRestoreRender restored] else []))⟩) := by
  cases hs : ext.ssbo_support
  · cases hb : ext.CreateGradientTexture pass
        (ext.CreateGradientBuffer self.colors_ self.stops_) with
    | none =>
      left
      refine ⟨rfl, rfl, ?_⟩
      simp only [Render, hs, Bool.false_eq_true, if_false]
      exact RenderTexture_of_bake_none ext self entity pass hb
    | some texture =>
      right
      obtain ⟨geo, defaults, options, added, restored, pre, cmd, -, hpre, -, hadd, hres, hR,
        -, -⟩ := RenderTexture_shape ext self entity pass texture hb
      refine ⟨geo, added, restored, pre, cmd, ?_, ?_, ?_, hadd, hres, ?_⟩
      · subst hpre; rfl
      · subst hpre; rfl
      · subst hpre; rfl
      · simp only [Render, hs, Bool.false_eq_true, if_false]
        exact hR
  · right
    obtain ⟨geo, defaults, options, mvp, added, restored, pre, cmd, -, hpre, -, hadd, hres, hR,
      -, -⟩ := RenderSSBO_shape ext self entity pass
    refine ⟨geo, added, restored, pre, cmd, ?_, ?_, ?_, hadd, hres, ?_⟩
    · subst hpre; rfl
    · subst hpre; rfl
    · subst hpre; rfl
    · simp only [Render, hs, if_true]
      exact hR

/-- C3: in every Render call, on either path, in which the geometry reports
prevent_overdraw = true, exactly one draw command is submitted, with the result
the pass gives.  If the pass accepted it, the clip restore pass is invoked right
after the submission, with the result the restore gives, and that is the only
invocation: the count is one.  If the pass rejected it, nothing is called after
the submission and the clip restore pass is not invoked at all: the count is
zero. -/
theorem Render_restore_after_accepted_draw (ext : Externals) (self : SweepGradientContents)
    (entity : Entity) (pass : RenderPass) (geo : GeometryResult)
    (hgeo : Call.GetPositionBuffer geo ∈ callsSince pass (Render ext self entity pass).2)
    (hprevent : geo.prevent_overdraw = true) :
    ∃ (pre post : List Call) (cmd : Command) (added : Bool),
      callsSince pass (Render ext self entity pass).2 =
        pre ++ Call.AddCommand cmd added :: post ∧
      submitCount (callsSince pass (Render ext self entity pass).2) = 1 ∧
      restoreCount pre = 0 ∧ submitCount pre = 0 ∧
      added = ext.AddCommand ⟨pass.calls ++ pre⟩ cmd ∧
      (added = true →
        post = [Call.ClipRestoreRender
          (ext.ClipRestoreRender ⟨pass.calls ++ pre ++ [Call.AddCommand cmd true]⟩ entity)] ∧
        restoreCount (callsSince pass (Render ext self entity pass).2) = 1) ∧
      (added = false →
        post = [] ∧
        (Render ext self entity pass).1 = false ∧
        restoreCount (callsSince pass (Render ext self entity pass).2) = 0) ∧
      (∀ c, Call.AddCommand c true ∈ callsSince pass (Render ext self entity pass).2 →
        restoreCount (callsSince pass (Render ext self entity pass).2) = 1 ∧
        ∃ restored,
          callsSince pass (Render ext self entity pass).2 =
            pre ++ [Call.AddCommand c true, Call.ClipRestoreRender restored]) ∧
      (∀ c, Call.AddCommand c false ∈ callsSince pass (Render ext self entity pass).2 →
        restoreCount (callsSince pass (Render ext self entity pass).2) = 0) := by
  rcases Render_cases ext self entity pass with
    ⟨-, -, hR⟩ | ⟨geo', added, restored, pre, cmd', hg, hr, hsub, hadd, hres, hR⟩
  · rw [hR, callsSince_append] at hgeo
    simp at hgeo
  · rw [hR, callsSince_append] at hgeo ⊢
    have hg' : geo' = geo := by
      rw [mem_geometryResults, geometryResults_append, hg] at hgeo
      cases added <;> cases hp : geo'.prevent_overdraw <;>
        simp [geometryResults, hp] at hgeo <;> exact hgeo.symm
    subst hg'
    have hmem := not_mem_of_submitCount_eq_zero pre hsub
    have hr' : List.countP Call.isRestore pre = 0 := hr
    have hsub' : List.countP Call.isSubmit pre = 0 := hsub
    rw [hprevent] at hR ⊢
    refine ⟨pre, if added && true then [Call.ClipRestoreRender restored] else [], cmd', added,
      rfl, ?_, hr, hsub, hadd, ?_, ?_, ?_, ?_⟩
    · cases added <;>
        simp [submitCount, List.countP_append, List.countP_cons, Call.isSubmit, hsub']
    · intro ha
      subst ha
      refine ⟨?_, ?_⟩
      · rw [hres]
        simp
      · simp [restoreCount, List.countP_append, List.countP_cons, Call.isRestore, hr']
    · intro ha
      subst ha
      refine ⟨by simp, by simp, ?_⟩
      simp [restoreCount, List.countP_append, List.countP_cons, Call.isRestore, hr']
    · intro c hc
      cases added
      · simp [hmem] at hc
      · have hc' : c = cmd' := by
          simpa [hmem] using hc
        subst hc'
        refine ⟨?_, restored, by simp⟩
        simp [restoreCount, List.countP_append, List.countP_cons, Call.isRestore, hr']
    · intro c hc
      cases added
      · simp [restoreCount, List.countP_append, List.countP_cons, Call.isRestore, hr']
      · simp [hmem] at hc

/-- A concrete instance: the SSBO path, an accepted draw under prevent_overdraw,
a failing restore pass.  The draw is in the calls and the restore count is one. -/
theorem Render_restore_after_accepted_draw_witness :
    (Call.GetPositionBuffer (sampleGeometry true) ∈
      callsSince samplePass
        (Render (sampleExternals true true true false none sampleOptions) sampleContents
          sampleEntity samplePass).2) ∧
    (sampleGeometry true).prevent_overdraw = true ∧
    submitCount
      (callsSince samplePass
        (Render (sampleExternals true true true false none sampleOptions) sampleContents
          sampleEntity samplePass).2) = 1 ∧
    restoreCount
      (callsSince samplePass
        (Render (sampleExternals true true true false none sampleOptions) sampleContents
          sampleEntity samplePass).2) = 1 ∧
    (callsSince samplePass
        (Render (sampleExternals true true true false none sampleOptions) sampleContents
          sampleEntity samplePass).2).getLast? = some (Call.ClipRestoreRender false) ∧
    ∃ (pre post : List Call) (cmd : Command) (added : Bool),
      callsSince samplePass
          (Render (sampleExternals true true true false none sampleOptions) sampleContents
            sampleEntity samplePass).2 =
        pre ++ Call.AddCommand cmd added :: post ∧
      added = (sampleExternals true true true false none sampleOptions).AddCommand
        ⟨samplePass.calls ++ pre⟩ cmd ∧
      (added = true →
        post = [Call.ClipRestoreRender
          ((sampleExternals true true true false none sampleOptions).ClipRestoreRender
            ⟨samplePass.calls ++ pre ++ [Call.AddCommand cmd true]⟩ sampleEntity)]) :=
  ⟨by decide, rfl, by decide, by decide, by decide,
    (Render_restore_after_accepted_draw
      (sampleExternals true true true false none sampleOptions) sampleContents sampleEntity
      samplePass (sampleGeometry true) (by decide) rfl).elim
      fun pre h1 => h1.elim fun post h2 => h2.elim fun cmd h3 => h3.elim fun added h4 =>
        ⟨pre, post, cmd, added, h4.1, h4.2.2.2.2.1, fun ha => (h4.2.2.2.2.2.1 ha).1⟩⟩

/-- C4: when the ramp texture bake fails, RenderTexture returns false, and the
only call it has made is the bake: no draw command is submitted. -/
theorem RenderTexture_bake_failure (ext : Externals) (self : SweepGradientContents)
    (entity : Entity) (pass : RenderPass)
    (h : ext.CreateGradientTexture pass (ext.CreateGradientBuffer self.colors_ self.stops_) = none) :
    (RenderTexture ext self entity pass).1 = false ∧
    (RenderTexture ext self entity pass).2.calls =
      pass.calls ++
        [Call.CreateGradientTexture (ext.CreateGradientBuffer self.colors_ self.stops_) none] ∧
    submitCount (callsSince pass (RenderTexture ext self entity pass).2) = 0 := by
  rw [RenderTexture_of_bake_none ext self entity pass h, callsSince_append]
  exact ⟨rfl, rfl, rfl⟩

/-- A concrete instance: a renderer without SSBO support whose bake fails. -/
theorem RenderTexture_bake_failure_witness :
    (RenderTexture (sampleExternals false true true true none sampleOptions) sampleContents
      sampleEntity samplePass).1 = false ∧
    (RenderTexture (sampleExternals false true true true none sampleOptions) sampleContents
      sampleEntity samplePass).2.calls =
      samplePass.calls ++ [Call.CreateGradientTexture ⟨[], 0⟩ none] ∧
    submitCount (callsSince samplePass
      (RenderTexture (sampleExternals false true true true none sampleOptions) sampleContents
        sampleEntity samplePass).2) = 0 :=
  RenderTexture_bake_failure (sampleExternals false true true true none sampleOptions)
    sampleContents sampleEntity samplePass rfl

/-- C5: RenderSSBO queries the geometry once and submits exactly one draw
command.  It returns true if and only if the pass accepted that command and,
when the geometry reported prevent_overdraw, the clip restore pass, invoked
right after the submission, returned success.  When prevent_overdraw is false
the result is the result of the submission and nothing is called after it.  A
rejected submission gives false and nothing is called after it. -/
theorem RenderSSBO_result (ext : Externals) (self : SweepGradientContents) (entity : Entity)
    (pass : RenderPass) :
    ∃ (pre post : List Call) (cmd : Command) (added : Bool) (geo : GeometryResult),
      (RenderSSBO ext self entity pass).2.calls =
        pass.calls ++ (pre ++ Call.AddCommand cmd added :: post) ∧
      submitCount pre = 0 ∧ submitCount post = 0 ∧ restoreCount pre = 0 ∧
      geometryResults pre = [geo] ∧
      added = ext.AddCommand ⟨pass.calls ++ pre⟩ cmd ∧
      ((RenderSSBO ext self entity pass).1 = true ↔
        added = true ∧
          (geo.prevent_overdraw = true → post = [Call.ClipRestoreRender true])) ∧
      (geo.prevent_overdraw = true → added = true →
        post = [Call.ClipRestoreRender (RenderSSBO ext self entity pass).1] ∧
        (RenderSSBO ext self entity pass).1 =
          ext.ClipRestoreRender ⟨pass.calls ++ pre ++ [Call.AddCommand cmd true]⟩ entity) ∧
      (geo.prevent_overdraw = false →
        (RenderSSBO ext self entity pass).1 = added ∧ post = []) ∧
      (added = false → (RenderSSBO ext self entity pass).1 = false ∧ post = []) := by
  obtain ⟨geo, defaults, options, mvp, added, restored, pre, cmd, hopt, hpre, -, hadd, hres, hR, -, -⟩ :=
    RenderSSBO_shape ext self entity pass
  refine ⟨pre, if added && geo.prevent_overdraw then [Call.ClipRestoreRender restored] else [],
    cmd, added, geo, ?_, ?_, ?_, ?_, ?_, hadd, ?_, ?_, ?_, ?_⟩
  · rw [hR]
  · subst hpre; rfl
  · cases added <;> cases geo.prevent_overdraw <;> rfl
  · subst hpre; rfl
  · subst hpre; rfl
  · rw [hR]
    cases added <;> cases geo.prevent_overdraw <;> cases restored <;> simp
  · intro hp ha
    rw [hR, hres, ha, hp]
    simp
  · intro hp
    rw [hR, hp]
    simp
  · intro ha
    rw [hR, ha]
    simp

/-- C6: Render is RenderSSBO when the ssbo_support flag is set and is
RenderTexture otherwise, result and final pass alike; it submits at most one
draw command; every call it makes belongs to the chosen path and none to the
other one, whatever the chosen path returns. -/
theorem Render_dispatch (ext : Externals) (self : SweepGradientContents) (entity : Entity)
    (pass : RenderPass) :
    Render ext self entity pass =
      (if ext.ssbo_support then RenderSSBO ext self entity pass
        else RenderTexture ext self entity pass) ∧
    submitCount (callsSince pass (Render ext self entity pass).2) ≤ 1 ∧
    (ext.ssbo_support = true →
      (callsSince pass (Render ext self entity pass).2).countP Call.isTexturePath = 0 ∧
      0 < (callsSince pass (Render ext self entity pass).2).countP Call.isSSBOPath) ∧
    (ext.ssbo_support = false →
      (callsSince pass (Render ext self entity pass).2).countP Call.isSSBOPath = 0 ∧
      0 < (callsSince pass (Render ext self entity pass).2).countP Call.isTexturePath) := by
  refine ⟨rfl, ?_, ?_, ?_⟩
  · rcases Render_cases ext self entity pass with
      ⟨-, -, hR⟩ | ⟨geo, added, restored, pre, cmd, -, -, hsub, -, -, hR⟩
    · rw [hR, callsSince_append]
      simp [submitCount, Call.isSubmit]
    · rw [hR, callsSince_append]
      unfold submitCount at hsub ⊢
      rw [List.countP_append, hsub]
      cases added <;> cases geo.prevent_overdraw <;> simp [Call.isSubmit]
  · intro hs
    simp only [Render, hs, if_true]
    obtain ⟨geo, defaults, options, mvp, added, restored, pre, cmd, hopt, hpre, hcmd, -, -, hR, -, -⟩ :=
      RenderSSBO_shape ext self entity pass
    rw [hR, callsSince_append]
    subst hpre hcmd
    cases added <;> cases geo.prevent_overdraw <;>
      simp [Call.isTexturePath, Call.isSSBOPath, List.countP_cons]
  · intro hs
    simp only [Render, hs, Bool.false_eq_true, if_false]
    cases hb : ext.CreateGradientTexture pass
        (ext.CreateGradientBuffer self.colors_ self.stops_) with
    | none =>
      rw [RenderTexture_of_bake_none ext self entity pass hb, callsSince_append]
      simp [Call.isTexturePath, Call.isSSBOPath, List.countP_cons]
    | some texture =>
      obtain ⟨geo, defaults, options, added, restored, pre, cmd, hopt, hpre, hcmd, -, -, hR, -, -⟩ :=
        RenderTexture_shape ext self entity pass texture hb
      rw [hR, callsSince_append]
      subst hpre hcmd
      cases added <;> cases geo.prevent_overdraw <;>
        simp [Call.isTexturePath, Call.isSSBOPath, List.countP_cons]

/-- C7, as stated, fails: two colours with the stops 1, 0 (same length,
not ascending), and one colour with the stops 0, 1 (ascending, length
differs).  Both setters complete, the stops are stored as given, and Render on
the SSBO path returns true after uploading the stop buffer and submitting the
draw command. -/
theorem Render_invalid_stops_not_rejected :
    (GetStops (SetStops (SetColors sampleContents [sampleRed, sampleBlue]) [1, 0]) =
        [1, 0] ∧
      ¬ List.Chain' (fun a b : Scalar => a < b) [1, 0] ∧
      (Render (sampleExternals true false true true none sampleOptions)
        (SetStops (SetColors sampleContents [sampleRed, sampleBlue]) [1, 0])
        sampleEntity samplePass).1 = true ∧
      Call.Emplace [⟨sampleRed, 1⟩, ⟨sampleBlue, 0⟩] 64 16 ∈
        (Render (sampleExternals true false true true none sampleOptions)
          (SetStops (SetColors sampleContents [sampleRed, sampleBlue]) [1, 0])
          sampleEntity samplePass).2.calls ∧
      submitCount
        (Render (sampleExternals true false true true none sampleOptions)
          (SetStops (SetColors sampleContents [sampleRed, sampleBlue]) [1, 0])
          sampleEntity samplePass).2.calls = 1) ∧
    (GetStops (SetStops (SetColors sampleContents [sampleRed]) [0, 1]) = [0, 1] ∧
      (GetStops (SetStops (SetColors sampleContents [sampleRed]) [0, 1])).length ≠
        (GetColors (SetStops (SetColors sampleContents [sampleRed]) [0, 1])).length ∧
      (Render (sampleExternals true false true true none sampleOptions)
        (SetStops (SetColors sampleContents [sampleRed]) [0, 1])
        sampleEntity samplePass).1 = true ∧
      (Render (sampleExternals true false true true none sampleOptions)
        (SetStops (SetColors sampleContents [sampleRed]) [0, 1])
        sampleEntity samplePass).2.calls.countP Call.isUpload = 3 ∧
      submitCount
        (Render (sampleExternals true false true true none sampleOptions)
          (SetStops (SetColors sampleContents [sampleRed]) [0, 1])
          sampleEntity samplePass).2.calls = 1) := by
  refine ⟨⟨rfl, ?_, ?_, ?_, ?_⟩, ⟨rfl, ?_, ?_, ?_, ?_⟩⟩
  · norm_num
  · decide
  · decide
  · decide
  · decide
  · decide
  · decide
  · decide

/-- C7, amended: SetColors and SetStops store the given lists unchanged and
report nothing, for every pair of lists; Render does not compare the stops with
the colours: on the SSBO path its first call uploads the output of the stop
packer for the stored colours and stops, and one draw command is submitted; on
the texture path its first call is the bake of the ramp built from the stored
colours and stops. -/
theorem Render_does_not_validate_stops (ext : Externals) (self : SweepGradientContents)
    (colors : List Color) (stops : List Scalar) (entity : Entity) (pass : RenderPass) :
    GetColors (SetStops (SetColors self colors) stops) = colors ∧
    GetStops (SetStops (SetColors self colors) stops) = stops ∧
    (ext.ssbo_support = true →
      ∃ rest,
        callsSince pass (Render ext (SetStops (SetColors self colors) stops) entity pass).2 =
          Call.Emplace (ext.CreateGradientColors colors stops)
            ((ext.CreateGradientColors colors stops).length * ext.sizeof_StopData)
            ext.alignof_StopData :: rest ∧
        submitCount rest = 1) ∧
    (ext.ssbo_support = false →
      ∃ rest,
        callsSince pass (Render ext (SetStops (SetColors self colors) stops) entity pass).2 =
          Call.CreateGradientTexture (ext.CreateGradientBuffer colors stops)
            (ext.CreateGradientTexture pass (ext.CreateGradientBuffer colors stops)) :: rest) := by
  refine ⟨rfl, rfl, ?_, ?_⟩
  · intro hs
    simp only [Render, hs, if_true]
    obtain ⟨geo, defaults, options, mvp, added, restored, pre, cmd, hopt, hpre, -, -, -, hR, -, -⟩ :=
      RenderSSBO_shape ext (SetStops (SetColors self colors) stops) entity pass
    rw [hR, callsSince_append]
    subst hpre
    refine ⟨_, rfl, ?_⟩
    cases added <;> cases geo.prevent_overdraw <;>
      simp [submitCount, Call.isSubmit, List.countP_cons]
  · intro hs
    simp only [Render, hs, Bool.false_eq_true, if_false]
    cases hb : ext.CreateGradientTexture pass (ext.CreateGradientBuffer colors stops) with
    | none =>
      rw [RenderTexture_of_bake_none ext (SetStops (SetColors self colors) stops) entity pass hb,
        callsSince_append]
      exact ⟨_, rfl⟩
    | some texture =>
      obtain ⟨geo, defaults, options, added, restored, pre, cmd, hopt, hpre, -, -, -, hR, -, -⟩ :=
        RenderTexture_shape ext (SetStops (SetColors self colors) stops) entity pass texture hb
      rw [hR, callsSince_append]
      subst hpre
      exact ⟨_, rfl⟩

/-- C8: in every Render call, on either path, that requests a pipeline, one
draw command is submitted, and the options for which its pipeline is requested
are the defaults derived from the pass and the entity with the primitive type
set to the type of the geometry; their stencil settings are changed exactly
when the geometry reports prevent_overdraw: in that case stencil compare is
kEqual and stencil operation is kIncrementClamp, otherwise both stencil fields
are those of the defaults.  So the stencil settings can differ from the
defaults only under prevent_overdraw, and they do whenever the defaults do not
already hold these two values. -/
theorem Render_pipeline_options (ext : Externals) (self : SweepGradientContents)
    (entity : Entity) (pass : RenderPass) (options : ContentContextOptions)
    (h : Call.GetSweepGradientSSBOFillPipeline options ∈
        callsSince pass (Render ext self entity pass).2 ∨
      Call.GetSweepGradientFillPipeline options ∈
        callsSince pass (Render ext self entity pass).2) :
    ∃ (geo : GeometryResult) (defaults : ContentContextOptions),
      geometryResults (callsSince pass (Render ext self entity pass).2) = [geo] ∧
      Call.OptionsFromPassAndEntity defaults ∈ callsSince pass (Render ext self entity pass).2 ∧
      (∃ p, defaults = ext.OptionsFromPassAndEntity p entity) ∧
      stencilSettings (callsSince pass (Render ext self entity pass).2) =
        [(options.stencil_compare, options.stencil_operation)] ∧
      submitCount (callsSince pass (Render ext self entity pass).2) = 1 ∧
      (∀ cmd added, Call.AddCommand cmd added ∈ callsSince pass (Render ext self entity pass).2 →
        cmd.pipeline =
          if ext.ssbo_support then ext.GetSweepGradientSSBOFillPipeline options
          else ext.GetSweepGradientFillPipeline options) ∧
      options.primitive_type = geo.type ∧
      options.rest = defaults.rest ∧
      (geo.prevent_overdraw = true →
        options.stencil_compare = CompareFunction.kEqual ∧
        options.stencil_operation = StencilOperation.kIncrementClamp) ∧
      (geo.prevent_overdraw = false →
        options.stencil_compare = defaults.stencil_compare ∧
        options.stencil_operation = defaults.stencil_operation) ∧
      ((options.stencil_compare ≠ defaults.stencil_compare ∨
          options.stencil_operation ≠ defaults.stencil_operation) ↔
        geo.prevent_overdraw = true ∧
          (defaults.stencil_compare ≠ CompareFunction.kEqual ∨
            defaults.stencil_operation ≠ StencilOperation.kIncrementClamp)) := by
  cases hs : ext.ssbo_support
  · simp only [Render, hs, Bool.false_eq_true, if_false] at h ⊢
    cases hb : ext.CreateGradientTexture pass
        (ext.CreateGradientBuffer self.colors_ self.stops_) with
    | none =>
      rw [RenderTexture_of_bake_none ext self entity pass hb, callsSince_append] at h
      simp at h
    | some texture =>
      obtain ⟨geo, defaults, options', added, restored, pre, cmd, hopt, hpre, hcmd, -, -, hR, -,
        hd⟩ := RenderTexture_shape ext self entity pass texture hb
      rw [hR, callsSince_append] at h ⊢
      subst hpre hcmd
      have ho : options = options' := by
        cases added <;> cases hp : geo.prevent_overdraw <;> simpa [hp] using h
      subst ho
      refine ⟨geo, defaults, ?_, ?_, hd, ?_, ?_, ?_, ?_, ?_, ?_, ?_, ?_⟩
      · cases added <;> cases geo.prevent_overdraw <;> rfl
      · simp
      · cases added <;> cases geo.prevent_overdraw <;> rfl
      · cases added <;> cases geo.prevent_overdraw <;> rfl
      · intro c a hc
        cases added <;> cases hp : geo.prevent_overdraw <;> simp [hp] at hc <;> simp [hc.1]
      · rw [hopt]
      · rw [hopt]
      · intro hp
        rw [hopt]
        simp [hp]
      · intro hp
        rw [hopt]
        simp [hp]
      · rw [hopt]
        cases hp : geo.prevent_overdraw <;> simp [hp]
        tauto
  · simp only [Render, hs, if_true] at h ⊢
    obtain ⟨geo, defaults, options', mvp, added, restored, pre, cmd, hopt, hpre, hcmd, -, -, hR, -,
      hd⟩ := RenderSSBO_shape ext self entity pass
    rw [hR, callsSince_append] at h ⊢
    subst hpre hcmd
    have ho : options = options' := by
      cases added <;> cases hp : geo.prevent_overdraw <;> simpa [hp] using h
    subst ho
    refine ⟨geo, defaults, ?_, ?_, hd, ?_, ?_, ?_, ?_, ?_, ?_, ?_, ?_⟩
    · cases added <;> cases geo.prevent_overdraw <;> rfl
    · simp
    · cases added <;> cases geo.prevent_overdraw <;> rfl
    · cases added <;> cases geo.prevent_overdraw <;> rfl
    · intro c a hc
      cases added <;> cases hp : geo.prevent_overdraw <;> simp [hp] at hc <;> simp [hc.1]
    · rw [hopt]
    · rw [hopt]
    · intro hp
      rw [hopt]
      simp [hp]
    · intro hp
      rw [hopt]
      simp [hp]
    · rw [hopt]
      cases hp : geo.prevent_overdraw <;> simp [hp]
      tauto

/-- A concrete instance: the SSBO path under prevent_overdraw, with defaults
that hold neither kEqual nor kIncrementClamp. -/
theorem Render_pipeline_options_witness :
    (Call.GetSweepGradientSSBOFillPipeline guardedOptions ∈
        callsSince samplePass
          (Render (sampleExternals true true true true none sampleOptions) sampleContents
            sampleEntity samplePass).2 ∨
      Call.GetSweepGradientFillPipeline guardedOptions ∈
        callsSince samplePass
          (Render (sampleExternals true true true true none sampleOptions) sampleContents
            sampleEntity samplePass).2) ∧
    ∃ (geo : GeometryResult) (defaults : ContentContextOptions),
      geometryResults
          (callsSince samplePass
            (Render (sampleExternals true true true true none sampleOptions) sampleContents
              sampleEntity samplePass).2) = [geo] ∧
      Call.OptionsFromPassAndEntity defaults ∈
        callsSince samplePass
          (Render (sampleExternals true true true true none sampleOptions) sampleContents
            sampleEntity samplePass).2 ∧
      (∃ p, defaults =
        (sampleExternals true true true true none sampleOptions).OptionsFromPassAndEntity p
          sampleEntity) ∧
      stencilSettings
          (callsSince samplePass
            (Render (sampleExternals true true true true none sampleOptions) sampleContents
              sampleEntity samplePass).2) =
        [(guardedOptions.stencil_compare, guardedOptions.stencil_operation)] ∧
      submitCount
          (callsSince samplePass
            (Render (sampleExternals true true true true none sampleOptions) sampleContents
              sampleEntity samplePass).2) = 1 ∧
      (∀ cmd added, Call.AddCommand cmd added ∈
          callsSince samplePass
            (Render (sampleExternals true true true true none sampleOptions) sampleContents
              sampleEntity samplePass).2 →
        cmd.pipeline =
          if (sampleExternals true true true true none sampleOptions).ssbo_support then
            (sampleExternals true true true true none
              sampleOptions).GetSweepGradientSSBOFillPipeline guardedOptions
          else
            (sampleExternals true true true true none
              sampleOptions).GetSweepGradientFillPipeline guardedOptions) ∧
      guardedOptions.primitive_type = geo.type ∧
      guardedOptions.rest = defaults.rest ∧
      (geo.prevent_overdraw = true →
        guardedOptions.stencil_compare = CompareFunction.kEqual ∧
        guardedOptions.stencil_operation = StencilOperation.kIncrementClamp) ∧
      (geo.prevent_overdraw = false →
        guardedOptions.stencil_compare = defaults.stencil_compare ∧
        guardedOptions.stencil_operation = defaults.stencil_operation) ∧
      ((guardedOptions.stencil_compare ≠ defaults.stencil_compare ∨
          guardedOptions.stencil_operation ≠ defaults.stencil_operation) ↔
        geo.prevent_overdraw = true ∧
          (defaults.stencil_compare ≠ CompareFunction.kEqual ∨
            defaults.stencil_operation ≠ StencilOperation.kIncrementClamp)) :=
  ⟨Or.inl (by decide),
    Render_pipeline_options (sampleExternals true true true true none sampleOptions)
      sampleContents sampleEntity samplePass guardedOptions (Or.inl (by decide))⟩

/-- C9: RenderSSBO submits a command with four bindings: the vertices, the
gradient block, the colour data and the frame block.  The gradient block is the
uniform uploaded with the configured centre, bias, scale, the numeric code of
the tile mode and the alpha, and with colors_length equal to the number of
entries the stop packer returned for the colours and stops.  The colour data is
the upload of exactly those entries, of byte size entry count times the size of
one entry. -/
theorem RenderSSBO_gradient_info (ext : Externals) (self : SweepGradientContents)
    (entity : Entity) (pass : RenderPass) :
    ∃ (cmd : Command) (added : Bool) (vertices : VertexBuffer)
      (info_view color_view frame_view : BufferView),
      Call.AddCommand cmd added ∈ callsSince pass (RenderSSBO ext self entity pass).2 ∧
      submitCount (callsSince pass (RenderSSBO ext self entity pass).2) = 1 ∧
      cmd.bindings =
        [Binding.Vertices vertices, Binding.GradientInfo info_view,
          Binding.ColorData color_view, Binding.FrameInfo frame_view] ∧
      (RenderSSBO ext self entity pass).2.calls[info_view.index]? =
        some (Call.EmplaceUniformSSBOGradientInfo
          { center := self.center_
            bias := self.bias_
            scale := self.scale_
            tile_mode := (self.tile_mode_.code : Scalar)
            alpha := self.alpha_
            colors_length := (ext.CreateGradientColors self.colors_ self.stops_).length }) ∧
      (RenderSSBO ext self entity pass).2.calls[color_view.index]? =
        some (Call.Emplace (ext.CreateGradientColors self.colors_ self.stops_)
          ((ext.CreateGradientColors self.colors_ self.stops_).length * ext.sizeof_StopData)
          ext.alignof_StopData) := by
  obtain ⟨geo, defaults, options, mvp, added, restored, pre, cmd, -, hpre, hcmd, -, -, hR, -, -⟩ :=
    RenderSSBO_shape ext self entity pass
  refine ⟨cmd, added, geo.vertex_buffer, ⟨pass.calls.length + 4⟩, ⟨pass.calls.length⟩,
    ⟨pass.calls.length + 5⟩, ?_, ?_, ?_, ?_, ?_⟩
  · rw [hR, callsSince_append]
    simp
  · rw [hR, callsSince_append]
    subst hpre
    cases added <;> cases geo.prevent_overdraw <;> rfl
  · rw [hcmd]
  · rw [hR]
    subst hpre
    show (pass.calls ++ _)[pass.calls.length + 4]? = _
    rw [getElem?_append_length_add]
    rfl
  · rw [hR]
    subst hpre
    show (pass.calls ++ _)[pass.calls.length + 0]? = _
    rw [getElem?_append_length_add]
    rfl

/-- C10: when the texture bake succeeds and the collaborators answer alike on
both paths (the same prevent_overdraw report, the same default stencil
settings, the same submission outcome, the same restore outcome),
RenderTexture and RenderSSBO request their pipelines with the same stencil
compare and stencil operation, submit their command with the stencil depth of
the entity as stencil reference, invoke the clip restore pass the same number
of times, and return the same boolean. -/
theorem RenderTexture_matches_RenderSSBO (ext : Externals) (self : SweepGradientContents)
    (entity : Entity) (pass : RenderPass) (texture : Texture)
    (hbake : ext.CreateGradientTexture pass
      (ext.CreateGradientBuffer self.colors_ self.stops_) = some texture)
    (hgeo : ∀ p q, (ext.GetPositionBuffer p entity).prevent_overdraw =
      (ext.GetPositionBuffer q entity).prevent_overdraw)
    (hdef : ∀ p q,
      (ext.OptionsFromPassAndEntity p entity).stencil_compare =
        (ext.OptionsFromPassAndEntity q entity).stencil_compare ∧
      (ext.OptionsFromPassAndEntity p entity).stencil_operation =
        (ext.OptionsFromPassAndEntity q entity).stencil_operation)
    (hadd : ∀ p q c d, ext.AddCommand p c = ext.AddCommand q d)
    (hres : ∀ p q, ext.ClipRestoreRender p entity = ext.ClipRestoreRender q entity) :
    (RenderTexture ext self entity pass).1 = (RenderSSBO ext self entity pass).1 ∧
    stencilSettings (callsSince pass (RenderTexture ext self entity pass).2) =
      stencilSettings (callsSince pass (RenderSSBO ext self entity pass).2) ∧
    (stencilSettings (callsSince pass (RenderSSBO ext self entity pass).2)).length = 1 ∧
    stencilReferences (callsSince pass (RenderTexture ext self entity pass).2) =
      [entity.stencil_depth] ∧
    stencilReferences (callsSince pass (RenderSSBO ext self entity pass).2) =
      [entity.stencil_depth] ∧
    restoreCount (callsSince pass (RenderTexture ext self entity pass).2) =
      restoreCount (callsSince pass (RenderSSBO ext self entity pass).2) := by
  obtain ⟨geoT, defT, optT, addT, resT, preT, cmdT, hoptT, hpreT, hcmdT, haddT, hresT, hRT,
    ⟨pg, hgT⟩, ⟨pd, hdT⟩⟩ := RenderTexture_shape ext self entity pass texture hbake
  obtain ⟨geoS, defS, optS, mvp, addS, resS, preS, cmdS, hoptS, hpreS, hcmdS, haddS, hresS, hRS,
    ⟨qg, hgS⟩, ⟨qd, hdS⟩⟩ := RenderSSBO_shape ext self entity pass
  have hp : geoT.prevent_overdraw = geoS.prevent_overdraw := by
    rw [hgT, hgS]; exact hgeo _ _
  have hc : defT.stencil_compare = defS.stencil_compare := by
    rw [hdT, hdS]; exact (hdef _ _).1
  have ho : defT.stencil_operation = defS.stencil_operation := by
    rw [hdT, hdS]; exact (hdef _ _).2
  have ha : addT = addS := by
    rw [haddT, haddS]; exact hadd _ _ _ _
  have hr : resT = resS := by
    rw [hresT, hresS]; exact hres _ _
  rw [hRT, hRS, callsSince_append, callsSince_append]
  subst hpreT hpreS hcmdT hcmdS hoptT hoptS ha hr
  refine ⟨?_, ?_, ?_, ?_, ?_, ?_⟩
  · simp [hp]
  · cases addT <;> cases hS : geoS.prevent_overdraw <;>
      simp [stencilSettings, hp, hS, hc, ho]
  · cases addT <;> cases hS : geoS.prevent_overdraw <;> simp [stencilSettings, hS]
  · cases addT <;> cases hS : geoS.prevent_overdraw <;> simp [stencilReferences, hp, hS]
  · cases addT <;> cases hS : geoS.prevent_overdraw <;> simp [stencilReferences, hS]
  · cases addT <;> cases hS : geoS.prevent_overdraw <;>
      simp [restoreCount, Call.isRestore, List.countP_cons, hp, hS]

/-- A concrete instance: collaborators that do not look at the history, an
accepted draw under prevent_overdraw, a failing restore pass. -/
theorem RenderTexture_matches_RenderSSBO_witness :
    (RenderTexture (sampleExternals false true true false (some sampleTexture) sampleOptions)
      sampleContents sampleEntity samplePass).1 =
      (RenderSSBO (sampleExternals false true true false (some sampleTexture) sampleOptions)
        sampleContents sampleEntity samplePass).1 ∧
    stencilSettings (callsSince samplePass
      (RenderTexture (sampleExternals false true true false (some sampleTexture) sampleOptions)
        sampleContents sampleEntity samplePass).2) =
      stencilSettings (callsSince samplePass
        (RenderSSBO (sampleExternals false true true false (some sampleTexture) sampleOptions)
          sampleContents sampleEntity samplePass).2) ∧
    (stencilSettings (callsSince samplePass
      (RenderSSBO (sampleExternals false true true false (some sampleTexture) sampleOptions)
        sampleContents sampleEntity samplePass).2)).length = 1 ∧
    stencilReferences (callsSince samplePass
      (RenderTexture (sampleExternals false true true false (some sampleTexture) sampleOptions)
        sampleContents sampleEntity samplePass).2) = [sampleEntity.stencil_depth] ∧
    stencilReferences (callsSince samplePass
      (RenderSSBO (sampleExternals false true true false (some sampleTexture) sampleOptions)
        sampleContents sampleEntity samplePass).2) = [sampleEntity.stencil_depth] ∧
    restoreCount (callsSince samplePass
      (RenderTexture (sampleExternals false true true false (some sampleTexture) sampleOptions)
        sampleContents sampleEntity samplePass).2) =
      restoreCount (callsSince samplePass
        (RenderSSBO (sampleExternals false true true false (some sampleTexture) sampleOptions)
          sampleContents sampleEntity samplePass).2) :=
  RenderTexture_matches_RenderSSBO
    (sampleExternals false true true false (some sampleTexture) sampleOptions)
    sampleContents sampleEntity samplePass sampleTexture rfl
    (fun _ _ => rfl) (fun _ _ => ⟨rfl, rfl⟩) (fun _ _ _ _ => rfl) (fun _ _ => rfl)

end impeller
